import Mathlib

/-!
Verification of the Citizen Hub backend (main.py / schemas.py).

The service is a small FastAPI application: passwordless email login issuing
opaque session tokens, token-gated creation/listing of application records and
mock payments, a linear predictive search over a fixed five-item catalog, and a
static guide catalog.  The embedding below translates the handlers of main.py
and the pydantic record types of schemas.py into pure Lean functions.

Modelling conventions:
- time is a UTC timestamp in whole seconds (`Time := Nat`); `timedelta(days=7)`
  is `sevenDays = 7 * 24 * 60 * 60` seconds, and the Mongo filter
  `expires_at > now` is `now < expires_at`;
- the document store (`database.py` is not part of the sources; only `main.py`
  calls it) is modelled from the spec as typed per-collection lists inside a
  `Store` record, with insertion-ordered queries and a counter for generated
  identifiers;
- `uuid4().hex` is modelled as an oracle: the generated token is an explicit
  argument of `login`, and freshness of a draw is a hypothesis where a claim
  needs it (the spec assumes 128-bit random hex tokens are unique);
- pydantic field validation that runs inside a handler (the `Literal` doc types
  of `Application`, the `ge=0` bound of `Payment.amount`) is modelled as an
  explicit validation step returning an `invalidInput` error; `amount` is
  modelled as an integer since only its sign is ever inspected;
- Python string operations are mirrored on `List Char`: `q.lower()`,
  `q.strip()`, `" ".join(...)`, `in` and `startswith`.
-/

namespace CitizenHub

/-- Time is modelled as a UTC timestamp in whole seconds. -/
abbrev Time := Nat

abbrev Email := String

abbrev Token := String

/-- Metadata dictionaries are opaque string-to-string mappings. -/
abbrev Metadata := List (String × String)

/-- Record of the user collection (schemas.py class User). -/
structure User where
  name : String
  email : Email
  preferred_language : String
  is_active : Bool
deriving Repr, DecidableEq

/-- Record of the session collection (schemas.py class Session). -/
structure Session where
  user_email : Email
  token : Token
  expires_at : Time
deriving Repr, DecidableEq

/-- Record of the application collection (schemas.py class Application). -/
structure Application where
  user_email : Email
  doc_type : String
  status : String
  reference_id : Option String
  metadata : Metadata
deriving Repr, DecidableEq

/-- Record of the payment collection (schemas.py class Payment). -/
structure Payment where
  user_email : Email
  purpose : String
  amount : Int
  currency : String
  status : String
  application_ref : Option String
  provider_ref : Option String
deriving Repr, DecidableEq

/-- Search catalog entry (schemas.py class SearchItem). -/
structure SearchItem where
  key : String
  label : String
  category : String
  url : String
  keywords : List String
deriving Repr, DecidableEq

/-- Request body of POST /auth/login (main.py class LoginRequest). -/
structure LoginRequest where
  email : Email
  name : Option String
  preferred_language : Option String
deriving Repr, DecidableEq

/-- Response body of POST /auth/login (main.py class LoginResponse). -/
structure LoginResponse where
  token : Token
  email : Email
  name : Option String
deriving Repr, DecidableEq

/-- Request body of POST /applications (main.py class ApplicationCreate). -/
structure ApplicationCreate where
  doc_type : String
  metadata : Metadata
deriving Repr, DecidableEq

/-- Request body of POST /payments/init (main.py class PaymentInit). -/
structure PaymentInit where
  purpose : String
  amount : Int
  application_ref : Option String
deriving Repr, DecidableEq

/-- Error taxonomy of the service (HTTPException 401 / 404 and pydantic
validation failures raised inside a handler). -/
inductive ApiError where
  | unauthorized (detail : String)
  | invalidInput (detail : String)
  | notFound (detail : String)
deriving Repr, DecidableEq

/-- Modelled from the spec: the document store (database.py is not under the
sources).  Collections are typed insertion-ordered lists; `nextId` feeds the
store-generated identifiers returned by `create`. -/
structure Store where
  users : List User
  sessions : List Session
  applications : List (Nat × Application)
  payments : List (Nat × Payment)
  nextId : Nat
deriving Repr, DecidableEq

/-- Store with no records at all. -/
def emptyStore : Store :=
  { users := [], sessions := [], applications := [], payments := [], nextId := 0 }

/-- Modelled from the spec: `create("session", record)` appends the record and
returns a fresh store-generated identifier. -/
def insertSession (st : Store) (s : Session) : Nat × Store :=
  (st.nextId, { st with sessions := st.sessions ++ [s], nextId := st.nextId + 1 })

/-- Modelled from the spec: `create("application", record)`. -/
def insertApplication (st : Store) (a : Application) : Nat × Store :=
  (st.nextId,
    { st with applications := st.applications ++ [(st.nextId, a)], nextId := st.nextId + 1 })

/-- Modelled from the spec: `create("payment", record)`. -/
def insertPayment (st : Store) (p : Payment) : Nat × Store :=
  (st.nextId, { st with payments := st.payments ++ [(st.nextId, p)], nextId := st.nextId + 1 })

/-- Modelled from the spec: `update-or-insert` on the user collection inserts
the defaults only if no record matches the email filter (the `$setOnInsert`
upsert of main.py line 73); an existing match is left untouched. -/
def upsertUser (st : Store) (email : Email) (defaults : User) : Store :=
  if st.users.any (fun u => u.email == email) then st
  else { st with users := st.users ++ [defaults] }

/-- Modelled from the spec: `query("application", filter on user_email, limit)`
returns up to `limit` matching records in insertion order. -/
def queryApplications (st : Store) (email : Email) (limit : Nat) : List (Nat × Application) :=
  (st.applications.filter (fun p => p.2.user_email == email)).take limit

/-- Find-one on the session collection with the filter
`token = tok and expires_at > now` (main.py lines 87 and 226). -/
def findSession (st : Store) (tok : Token) (now : Time) : Option Session :=
  st.sessions.find? (fun s => s.token == tok && decide (now < s.expires_at))

/-- Python truthiness of `v or d` on an optional string: `None` and the empty
string both fall back to the default. -/
def orDefault (v : Option String) (d : String) : String :=
  match v with
  | none => d
  | some s => if s = "" then d else s

/-- Seven days in seconds, the session lifetime `timedelta(days=7)`. -/
def sevenDays : Time := 7 * 24 * 60 * 60

/-- Defaults inserted by the user upsert of main.py line 73:
`req.name or "Citizen"` and `req.preferred_language or "en"`. -/
def defaultUser (req : LoginRequest) : User :=
  { name := orDefault req.name "Citizen", email := req.email,
    preferred_language := orDefault req.preferred_language "en", is_active := true }

/-- Handler POST /auth/login (main.py lines 67-78).  The token drawn by
`uuid4().hex` and the current time are explicit arguments. -/
def login (st : Store) (req : LoginRequest) (tok : Token) (now : Time) :
    LoginResponse × Store :=
  let st1 := upsertUser st req.email (defaultUser req)
  let expires := now + sevenDays
  let st2 := (insertSession st1
    { user_email := req.email, token := tok, expires_at := expires }).2
  ({ token := tok, email := req.email, name := req.name }, st2)

/-- Token check helper of main.py lines 223-229: 401 on an empty token and on
a failed session lookup, otherwise the user email bound to the session. -/
def awaitable_get_user (st : Store) (tok : Token) (now : Time) : Except ApiError Email :=
  if tok = "" then Except.error (ApiError.unauthorized "Missing token")
  else
    match findSession st tok now with
    | none => Except.error (ApiError.unauthorized "Invalid or expired token")
    | some s => Except.ok s.user_email

/-- Permitted doc types (the Literal annotation of Application.doc_type). -/
def docTypeValues : List String := ["aadhaar", "pan", "dl", "voter", "passport"]

/-- Validation performed by constructing schemas.Application inside the
handler: the doc type must be one of the Literal values; status is the
pydantic default "draft" and is not accepted from the caller. -/
def mkApplication (email : Email) (doc_type : String) (meta : Metadata) :
    Except ApiError Application :=
  if docTypeValues.contains doc_type then
    Except.ok { user_email := email, doc_type := doc_type, status := "draft",
                reference_id := none, metadata := meta }
  else Except.error (ApiError.invalidInput "doc_type not permitted")

/-- Handler POST /applications (main.py lines 93-98). -/
def create_application (st : Store) (payload : ApplicationCreate) (tok : Token) (now : Time) :
    Except ApiError (Nat × String) × Store :=
  match awaitable_get_user st tok now with
  | Except.error e => (Except.error e, st)
  | Except.ok email =>
    match mkApplication email payload.doc_type payload.metadata with
    | Except.error e => (Except.error e, st)
    | Except.ok appDoc =>
      let created := insertApplication st appDoc
      (Except.ok (created.1, appDoc.status), created.2)

/-- Handler GET /applications (main.py lines 100-107): records of the
authenticated user, capped at 50, identifiers rendered as strings. -/
def list_applications (st : Store) (tok : Token) (now : Time) :
    Except ApiError (List (String × Application)) :=
  match awaitable_get_user st tok now with
  | Except.error e => Except.error e
  | Except.ok email =>
    Except.ok ((queryApplications st email 50).map (fun p => (toString p.1, p.2)))

/-- Validation performed by constructing schemas.Payment inside the handler:
`amount` carries the bound `ge=0`; currency and status take their pydantic
defaults. -/
def mkPayment (email : Email) (purpose : String) (amount : Int) (appRef : Option String) :
    Except ApiError Payment :=
  if 0 ≤ amount then
    Except.ok { user_email := email, purpose := purpose, amount := amount,
                currency := "INR", status := "initiated",
                application_ref := appRef, provider_ref := none }
  else Except.error (ApiError.invalidInput "amount must be nonnegative")

/-- Handler POST /payments/init (main.py lines 110-115). -/
def init_payment (st : Store) (payload : PaymentInit) (tok : Token) (now : Time) :
    Except ApiError (Nat × String) × Store :=
  match awaitable_get_user st tok now with
  | Except.error e => (Except.error e, st)
  | Except.ok email =>
    match mkPayment email payload.purpose payload.amount payload.application_ref with
    | Except.error e => (Except.error e, st)
    | Except.ok pay =>
      let created := insertPayment st pay
      (Except.ok (created.1, "initiated"), created.2)

/-- Python `s.lower()` on the character list of a string (ASCII case map). -/
def lowerChars (l : List Char) : List Char := l.map Char.toLower

/-- Python `s.strip()`: drop leading and trailing whitespace. -/
def stripChars (l : List Char) : List Char :=
  ((l.dropWhile Char.isWhitespace).reverse.dropWhile Char.isWhitespace).reverse

/-- Python `" ".join(xs)`: the pieces separated by single spaces. -/
def sepJoin : List String → List Char
  | [] => []
  | [x] => x.data
  | x :: xs => x.data ++ ' ' :: sepJoin xs

/-- First catalog entry (main.py line 119). -/
def aadhaarItem : SearchItem :=
  { key := "aadhaar", label := "Apply for Aadhaar", category := "Identity",
    url := "/guide/aadhaar", keywords := ["uidai", "uid", "identity", "proof"] }

/-- Second catalog entry (main.py line 120). -/
def panItem : SearchItem :=
  { key := "pan", label := "Apply for PAN", category := "Tax",
    url := "/guide/pan", keywords := ["income tax", "form 49a", "epan"] }

/-- Third catalog entry (main.py line 121). -/
def dlItem : SearchItem :=
  { key := "dl", label := "Apply for Driving Licence", category := "Transport",
    url := "/guide/driving-licence", keywords := ["sarathi", "rto", "learner", "dl"] }

/-- Fourth catalog entry (main.py line 122). -/
def voterItem : SearchItem :=
  { key := "voter", label := "Register Voter ID", category := "Elections",
    url := "/guide/voter", keywords := ["epic", "eci", "form 6"] }

/-- Fifth catalog entry (main.py line 123). -/
def passportItem : SearchItem :=
  { key := "passport", label := "Apply for Passport", category := "Travel",
    url := "/guide/passport", keywords := ["psk", "tatkaal", "seva"] }

/-- Static search catalog (main.py lines 118-124). -/
def SEARCH_ITEMS : List SearchItem :=
  [aadhaarItem, panItem, dlItem, voterItem, passportItem]

/-- Query normalisation of the search handler: `q.lower().strip()`. -/
def normalizeQuery (q : String) : List Char := stripChars (lowerChars q.data)

/-- Haystack of an item:
`" ".join([item.label, item.category] + item.keywords).lower()`. -/
def hayOf (it : SearchItem) : List Char :=
  lowerChars (sepJoin ([it.label, it.category] ++ it.keywords))

/-- Match test of the search handler (main.py line 132): substring of the
haystack, or prefix of the key or of a keyword. -/
def itemMatches (ql : List Char) (it : SearchItem) : Bool :=
  decide (ql <:+: hayOf it) ||
    (it.key :: it.keywords).any (fun k => decide (ql <+: k.data))

/-- Handler GET /search (main.py lines 126-134): matching items in catalog
order, truncated to the first 8. -/
def predictive_search (q : String) : List SearchItem :=
  (SEARCH_ITEMS.filter (itemMatches (normalizeQuery q))).take 8

/-- Concatenation of the pieces of a string list with no separator. -/
def flatJoin : List String → List Char
  | [] => []
  | x :: xs => x.data ++ flatJoin xs

/-- Modelled from the spec: the "concatenation of the item's label, category,
and keywords (lowercased)" read literally, i.e. the fields appended with no
separator between them (the source instead joins them with single spaces). -/
def specConcatHay (it : SearchItem) : List Char :=
  lowerChars (it.label.data ++ it.category.data ++ flatJoin it.keywords)

/-- Static guide content (main.py class-level dictionary entries). -/
structure Guide where
  title : String
  summary : String
  cost : String
  time : String
  official : String
  steps : List String
deriving Repr, DecidableEq

/-- Guide content for aadhaar (main.py lines 138-153). -/
def aadhaarGuide : Guide :=
  { title := "Get your Aadhaar Number",
    summary := "A step-by-step guide to enrol for Aadhaar.",
    cost := "Free for first-time enrolment",
    time := "Usually a few weeks; up to 180 days",
    official := "https://myaadhaar.uidai.gov.in/",
    steps :=
      ["Find a nearby Aadhaar Enrolment Centre.",
       "Fill the enrolment form.",
       "Show original ID and address proofs. They will be scanned and returned.",
       "Give photo, fingerprints, and iris scans.",
       "Check your details on the screen.",
       "Keep the acknowledgement slip with EID to track.",
       "Download e-Aadhaar when ready."] }

/-- Guide content for pan (main.py lines 154-168). -/
def panGuide : Guide :=
  { title := "Get your PAN",
    summary := "Apply online for a Permanent Account Number (PAN).",
    cost := "Instant e-PAN: Free; Regular: ~₹101–₹107",
    time := "Instant in minutes (e-PAN) or ~15–20 days",
    official := "https://www.incometax.gov.in/",
    steps :=
      ["Choose Instant e-PAN or Regular PAN.",
       "Fill Form 49A (online).",
       "Pay the fee if required.",
       "Use Aadhaar e-KYC if possible (no paperwork).",
       "If not e-KYC, print, sign, and post the form.",
       "Get e-PAN by email; physical card comes by post."] }

/-- Guide content for dl (main.py lines 169-183). -/
def dlGuide : Guide :=
  { title := "Get a Driving Licence",
    summary := "Apply for a Learner\x27s Licence, then take a driving test.",
    cost := "Varies by State; ~₹200–₹500 for LL; ₹700–₹1,500 for DL",
    time := "LL: same day after test; DL: after road test",
    official := "https://sarathi.parivahan.gov.in/",
    steps :=
      ["Apply online for Learner\x27s Licence.",
       "Upload documents and pay the fee.",
       "Book and pass the online test.",
       "Wait 30 days or more.",
       "Apply for Driving Licence and book road test.",
       "Take the test at the RTO. Bring originals."] }

/-- Guide content for voter (main.py lines 184-198). -/
def voterGuide : Guide :=
  { title := "Register for Voter ID",
    summary := "Add your name to the electoral roll (Form 6).",
    cost := "Free",
    time := "~30 days to 2 months",
    official := "https://voters.eci.gov.in/",
    steps :=
      ["Log in to the Voter Services Portal.",
       "Choose Form 6 and fill your details.",
       "Upload photo, ID, address and age proof.",
       "Submit and keep the reference number.",
       "BLO may visit your home for verification.",
       "Get your EPIC after approval."] }

/-- Guide content for passport (main.py lines 199-213). -/
def passportGuide : Guide :=
  { title := "Get a Passport",
    summary := "Create an account and book an appointment at a PSK.",
    cost := "Normal: ₹1,500 (36 pages); Tatkaal: ₹3,500",
    time := "Normal: 15–30 days; Tatkaal: 7–14 days",
    official := "https://passportindia.gov.in/",
    steps :=
      ["Create account at Passport Seva.",
       "Fill application and pay the fee.",
       "Book appointment at PSK/POPSK.",
       "Visit with originals. Biometrics will be taken.",
       "Police Verification will happen.",
       "Passport will be printed and sent by post."] }

/-- Static guide dictionary (main.py lines 137-213), in insertion order. -/
def GUIDES : List (String × Guide) :=
  [("aadhaar", aadhaarGuide), ("pan", panGuide), ("dl", dlGuide),
   ("voter", voterGuide), ("passport", passportGuide)]

/-- Handler GET /guides/key (main.py lines 215-219): 404 on an unknown key,
otherwise the stored content. -/
def get_guide (key : String) : Except ApiError Guide :=
  match GUIDES.lookup key with
  | none => Except.error (ApiError.notFound "Guide not found")
  | some g => Except.ok g

deriving instance DecidableEq for Except

/-! Helper lemmas shared by the claim theorems. -/

lemma upsertUser_sessions (st : Store) (e : Email) (d : User) :
    (upsertUser st e d).sessions = st.sessions := by
  unfold upsertUser; split <;> rfl

lemma login_sessions (st : Store) (req : LoginRequest) (tok : Token) (now : Time) :
    ((login st req tok now).2).sessions =
      st.sessions ++ [{ user_email := req.email, token := tok, expires_at := now + sevenDays }] := by
  simp [login, insertSession, upsertUser_sessions]

lemma findSession_isSome_iff (st : Store) (tok : Token) (now : Time) :
    (findSession st tok now).isSome = true ↔
      ∃ s ∈ st.sessions, s.token = tok ∧ now < s.expires_at := by
  simp [findSession, List.find?_isSome]

lemma findSession_eq_some (st : Store) (tok : Token) (now : Time) (s : Session)
    (h : findSession st tok now = some s) :
    s ∈ st.sessions ∧ s.token = tok ∧ now < s.expires_at := by
  have h1 := List.find?_some h
  have h2 := List.mem_of_find?_eq_some h
  simp at h1
  exact ⟨h2, h1.1, h1.2⟩

lemma awaitable_ok_iff (st : Store) (tok : Token) (now : Time) (e : Email) :
    awaitable_get_user st tok now = Except.ok e ↔
      tok ≠ "" ∧ ∃ s, findSession st tok now = some s ∧ s.user_email = e := by
  unfold awaitable_get_user
  by_cases htok : tok = ""
  · simp [htok]
  · rw [if_neg htok]
    cases hfind : findSession st tok now with
    | none => simp [htok]
    | some s => simp [htok]

lemma lookup_skip {β : Type} (key a : String) (v : β) (es : List (String × β)) (h : key ≠ a) :
    List.lookup key ((a, v) :: es) = List.lookup key es := by
  simp only [List.lookup]
  split
  · rename_i heq
    exact absurd (by simpa using heq) h
  · rfl

/-! Concrete records used by the witness theorems. -/

/-- Example store: one user with one live session, and one application record
each for two distinct users sharing identical metadata. -/
def stEx : Store :=
  { users := [{ name := "Asha", email := "asha@example.com",
                preferred_language := "en", is_active := true }],
    sessions := [{ user_email := "asha@example.com", token := "tok1", expires_at := 1000 }],
    applications :=
      [(0, { user_email := "asha@example.com", doc_type := "pan", status := "draft",
             reference_id := none, metadata := [("note", "shared")] }),
       (1, { user_email := "other@example.com", doc_type := "dl", status := "draft",
             reference_id := none, metadata := [("note", "shared")] })],
    payments := [],
    nextId := 2 }

/-- Example login request for a fresh email. -/
def req0 : LoginRequest :=
  { email := "ravi@example.com", name := some "Ravi", preferred_language := some "en" }

/-- C1: for every token, `awaitable_get_user` fails with Unauthorized exactly
when the token is empty, or no stored session carries that token with an
expiry strictly after the current time (so an expiry equal to now is treated
as expired); on success it returns the user_email bound to a matching session;
and the authentication step of the protected handlers never changes the
session collection (no sliding-expiration renewal). -/
theorem C1_authenticate_characterisation (st : Store) (tok : Token) (now : Time) :
    ((∃ e, awaitable_get_user st tok now = Except.ok e) ↔
      tok ≠ "" ∧ ∃ s ∈ st.sessions, s.token = tok ∧ now < s.expires_at) ∧
    (∀ e, awaitable_get_user st tok now = Except.ok e →
      ∃ s ∈ st.sessions, s.token = tok ∧ now < s.expires_at ∧ s.user_email = e) ∧
    (∀ payload, ((create_application st payload tok now).2).sessions = st.sessions) ∧
    (∀ payload, ((init_payment st payload tok now).2).sessions = st.sessions) := by
  refine ⟨⟨?_, ?_⟩, ?_, ?_, ?_⟩
  · rintro ⟨e, he⟩
    rw [awaitable_ok_iff] at he
    obtain ⟨htok, s, hfind, _⟩ := he
    obtain ⟨hmem, htk, hexp⟩ := findSession_eq_some st tok now s hfind
    exact ⟨htok, s, hmem, htk, hexp⟩
  · rintro ⟨htok, s, hmem, htk, hexp⟩
    have hsome : (findSession st tok now).isSome = true :=
      (findSession_isSome_iff st tok now).mpr ⟨s, hmem, htk, hexp⟩
    obtain ⟨t, ht⟩ := Option.isSome_iff_exists.mp hsome
    exact ⟨t.user_email, (awaitable_ok_iff st tok now t.user_email).mpr ⟨htok, t, ht, rfl⟩⟩
  · intro e he
    rw [awaitable_ok_iff] at he
    obtain ⟨htok, s, hfind, hue⟩ := he
    obtain ⟨hmem, htk, hexp⟩ := findSession_eq_some st tok now s hfind
    exact ⟨s, hmem, htk, hexp, hue⟩
  · intro payload
    cases hA : awaitable_get_user st tok now with
    | error e => simp [create_application, hA]
    | ok email =>
      cases hM : mkApplication email payload.doc_type payload.metadata with
      | error e => simp [create_application, hA, hM]
      | ok appDoc => simp [create_application, hA, hM, insertApplication]
  · intro payload
    cases hA : awaitable_get_user st tok now with
    | error e => simp [init_payment, hA]
    | ok email =>
      cases hM : mkPayment email payload.purpose payload.amount payload.application_ref with
      | error e => simp [init_payment, hA, hM]
      | ok pay => simp [init_payment, hA, hM, insertPayment]

/-- C1 witness: in the example store, token "tok1" at time 500 authenticates
and is bound to asha@example.com. -/
theorem C1_witness :
    ∃ s ∈ stEx.sessions, s.token = "tok1" ∧ 500 < s.expires_at ∧
      s.user_email = "asha@example.com" :=
  (C1_authenticate_characterisation stEx "tok1" 500).2.1 "asha@example.com" (by decide)

/-- C2: when the drawn token is fresh (the uuid4 uniqueness assumption), login
appends one brand-new session record whose token is the fresh draw, distinct
from every previously stored session token, and whose expiry is exactly seven
days after the time of issuance; the response carries the same token. -/
theorem C2_login_fresh_session (st : Store) (req : LoginRequest) (tok : Token) (now : Time)
    (hfresh : ∀ s ∈ st.sessions, s.token ≠ tok) :
    ((login st req tok now).2).sessions =
      st.sessions ++ [{ user_email := req.email, token := tok, expires_at := now + sevenDays }] ∧
    (∃ snew ∈ ((login st req tok now).2).sessions,
      snew.token = tok ∧ snew.expires_at = now + sevenDays ∧ snew.user_email = req.email ∧
      ∀ s0 ∈ st.sessions, s0.token ≠ snew.token) ∧
    (login st req tok now).1.token = tok := by
  refine ⟨login_sessions st req tok now, ?_, rfl⟩
  refine ⟨{ user_email := req.email, token := tok, expires_at := now + sevenDays },
    ?_, rfl, rfl, rfl, ?_⟩
  · rw [login_sessions]
    simp
  · intro s0 hs0
    exact hfresh s0 hs0

/-- C2 witness: a login for ravi@example.com with the fresh token "tok9" at
time 100 appends exactly one session expiring at 100 + sevenDays. -/
theorem C2_witness :
    ((login stEx req0 "tok9" 100).2).sessions =
      stEx.sessions ++
        [{ user_email := req0.email, token := "tok9", expires_at := 100 + sevenDays }] ∧
    (∃ snew ∈ ((login stEx req0 "tok9" 100).2).sessions,
      snew.token = "tok9" ∧ snew.expires_at = 100 + sevenDays ∧ snew.user_email = req0.email ∧
      ∀ s0 ∈ stEx.sessions, s0.token ≠ snew.token) ∧
    (login stEx req0 "tok9" 100).1.token = "tok9" :=
  C2_login_fresh_session stEx req0 "tok9" 100 (by decide)

lemma predictive_search_eq_filter (q : String) :
    predictive_search q = SEARCH_ITEMS.filter (itemMatches (normalizeQuery q)) := by
  unfold predictive_search
  apply List.take_of_length_le
  calc (SEARCH_ITEMS.filter (itemMatches (normalizeQuery q))).length
      ≤ SEARCH_ITEMS.length := List.length_filter_le _ _
    _ ≤ 8 := by decide

/-- C3 counterexample: the pan item satisfies the claimed condition for the
query "pantax" (the normalized query is a substring of the separator-free
lowercased concatenation of label, category and keywords), yet the search
handler does not return it, because the source joins those fields with
spaces. -/
theorem C3_counterexample :
    panItem ∈ SEARCH_ITEMS ∧
    normalizeQuery "pantax" <:+: specConcatHay panItem ∧
    panItem ∉ predictive_search "pantax" := by decide

/-- C3 amended: search lowercases and trims the query; an item of the fixed
catalog is returned exactly when the normalized query is a substring of the
space-separated concatenation of its label, category and keywords
(lowercased), or is a prefix of its key or of one of its keywords; the
results keep the catalog insertion order, are truncated to the first 8, and
the empty query returns the whole catalog. -/
theorem C3_search_amended :
    (∀ (q : String) (it : SearchItem),
      it ∈ predictive_search q ↔
        it ∈ SEARCH_ITEMS ∧
          (normalizeQuery q <:+: hayOf it ∨
            ∃ k ∈ it.key :: it.keywords, normalizeQuery q <+: k.data)) ∧
    (∀ q : String, List.Sublist (predictive_search q) SEARCH_ITEMS ∧
      (predictive_search q).length ≤ 8) ∧
    predictive_search "" = SEARCH_ITEMS := by
  refine ⟨?_, ?_, by decide⟩
  · intro q it
    rw [predictive_search_eq_filter, List.mem_filter]
    apply and_congr_right
    intro _
    simp [itemMatches, List.any_eq_true]
  · intro q
    constructor
    · rw [predictive_search_eq_filter]
      exact List.filter_sublist _
    · exact List.length_take_le _ _

lemma login_users (st : Store) (req : LoginRequest) (tok : Token) (now : Time) :
    ((login st req tok now).2).users = (upsertUser st req.email (defaultUser req)).users := by
  simp [login, insertSession]

lemma upsertUser_of_exists (st : Store) (e : Email) (d : User)
    (h : ∃ u ∈ st.users, u.email = e) : (upsertUser st e d).users = st.users := by
  obtain ⟨u, hu, he⟩ := h
  unfold upsertUser
  rw [if_pos (List.any_eq_true.mpr ⟨u, hu, by simp [he]⟩)]

/-- C4: the user upsert of login is create-only.  A login for an email that
already has a User record leaves the user collection entirely unchanged, even
when the request carries a different name or preferred_language; a first login
stores the request defaults; and a second login with the same email leaves the
users stored by the first login untouched. -/
theorem C4_user_upsert_create_only :
    (∀ (st : Store) (req : LoginRequest) (tok : Token) (now : Time),
      (∃ u ∈ st.users, u.email = req.email) →
      ((login st req tok now).2).users = st.users) ∧
    (∀ (req1 : LoginRequest) (tok1 : Token) (n1 : Time),
      ((login emptyStore req1 tok1 n1).2).users = [defaultUser req1]) ∧
    (∀ (req1 req2 : LoginRequest) (tok1 tok2 : Token) (n1 n2 : Time),
      req2.email = req1.email →
      ((login ((login emptyStore req1 tok1 n1).2) req2 tok2 n2).2).users =
        ((login emptyStore req1 tok1 n1).2).users) := by
  have hfirst : ∀ (st : Store) (req : LoginRequest) (tok : Token) (now : Time),
      (∃ u ∈ st.users, u.email = req.email) →
      ((login st req tok now).2).users = st.users := by
    intro st req tok now h
    rw [login_users]
    exact upsertUser_of_exists st req.email (defaultUser req) h
  have hempty : ∀ (req1 : LoginRequest) (tok1 : Token) (n1 : Time),
      ((login emptyStore req1 tok1 n1).2).users = [defaultUser req1] := by
    intro req1 tok1 n1
    rw [login_users]
    simp [upsertUser, emptyStore]
  refine ⟨hfirst, hempty, ?_⟩
  intro req1 req2 tok1 tok2 n1 n2 hreq
  apply hfirst
  refine ⟨defaultUser req1, ?_, ?_⟩
  · rw [hempty]
    simp
  · simp [defaultUser, hreq]

/-- C4 witness: a login for asha@example.com with a different name and
language leaves the stored user collection of the example store unchanged. -/
theorem C4_witness :
    ((login stEx
        { email := "asha@example.com", name := some "Different Name",
          preferred_language := some "hi" } "tokA" 77).2).users = stEx.users :=
  C4_user_upsert_create_only.1 stEx
    { email := "asha@example.com", name := some "Different Name",
      preferred_language := some "hi" } "tokA" 77
    ⟨{ name := "Asha", email := "asha@example.com", preferred_language := "en",
       is_active := true }, by decide, rfl⟩

/-- C5: with a valid token and a permitted doc type, create_application stores
a new record whose status is "draft" and whose metadata is exactly the payload
metadata, and returns the fresh reference together with status "draft".  The
request type carries no status field at all, so a caller cannot influence the
stored status. -/
theorem C5_create_application_draft (st : Store) (payload : ApplicationCreate)
    (tok : Token) (now : Time) (e : Email)
    (hauth : awaitable_get_user st tok now = Except.ok e)
    (hdoc : docTypeValues.contains payload.doc_type = true) :
    create_application st payload tok now =
      (Except.ok (st.nextId, "draft"),
        { st with
          applications := st.applications ++
            [(st.nextId,
              { user_email := e, doc_type := payload.doc_type, status := "draft",
                reference_id := none, metadata := payload.metadata })],
          nextId := st.nextId + 1 }) := by
  have hmem : payload.doc_type ∈ docTypeValues := by simpa using hdoc
  simp [create_application, hauth, mkApplication, hmem, insertApplication]

/-- C5 witness: creating a pan application with token "tok1" in the example
store yields reference 2 with status "draft" and stores the metadata as
given. -/
theorem C5_witness :
    create_application stEx { doc_type := "pan", metadata := [("note", "first")] }
        "tok1" 500 =
      (Except.ok (2, "draft"),
        { stEx with
          applications := stEx.applications ++
            [(2, { user_email := "asha@example.com", doc_type := "pan", status := "draft",
                   reference_id := none, metadata := [("note", "first")] })],
          nextId := 3 }) :=
  C5_create_application_draft stEx { doc_type := "pan", metadata := [("note", "first")] }
    "tok1" 500 "asha@example.com" (by decide) (by decide)

/-- C6: with a valid token bound to user e, list_applications returns only
records whose user_email is e, at most 50 of them, each carrying a
store-generated identifier rendered as a string. -/
theorem C6_list_applications_scoped (st : Store) (tok : Token) (now : Time) (e : Email)
    (hauth : awaitable_get_user st tok now = Except.ok e) :
    ∃ out, list_applications st tok now = Except.ok out ∧
      (∀ r ∈ out, r.2.user_email = e) ∧
      out.length ≤ 50 ∧
      (∀ r ∈ out, ∃ i, (i, r.2) ∈ st.applications ∧ r.1 = toString i) := by
  refine ⟨(queryApplications st e 50).map (fun p => (toString p.1, p.2)), ?_, ?_, ?_, ?_⟩
  · simp [list_applications, hauth]
  · intro r hr
    obtain ⟨p, hp, hpr⟩ := List.mem_map.mp hr
    have hpf : p ∈ st.applications.filter (fun x => x.2.user_email == e) :=
      List.mem_of_mem_take (by simpa [queryApplications] using hp)
    have hue : p.2.user_email = e := by simpa using (List.mem_filter.mp hpf).2
    rw [← hpr]
    exact hue
  · have hlen : (queryApplications st e 50).length ≤ 50 := by
      unfold queryApplications
      exact List.length_take_le _ _
    simpa using hlen
  · intro r hr
    obtain ⟨p, hp, hpr⟩ := List.mem_map.mp hr
    have hpf : p ∈ st.applications.filter (fun x => x.2.user_email == e) :=
      List.mem_of_mem_take (by simpa [queryApplications] using hp)
    have hmem : p ∈ st.applications := (List.mem_filter.mp hpf).1
    refine ⟨p.1, ?_, ?_⟩
    · rw [← hpr]
      exact hmem
    · rw [← hpr]

/-- C6 witness: in the example store, where two users own one application each
with identical metadata, listing with token "tok1" returns only the records of
asha@example.com with string identifiers. -/
theorem C6_witness :
    ∃ out, list_applications stEx "tok1" 500 = Except.ok out ∧
      (∀ r ∈ out, r.2.user_email = "asha@example.com") ∧
      out.length ≤ 50 ∧
      (∀ r ∈ out, ∃ i, (i, r.2) ∈ stEx.applications ∧ r.1 = toString i) :=
  C6_list_applications_scoped stEx "tok1" 500 "asha@example.com" (by decide)

/-- C7: with a valid token, init_payment on a negative amount fails with the
InvalidInput condition (not Unauthorized) and leaves the store untouched,
while a nonnegative amount appends one payment record and returns its fresh
identifier with status "initiated". -/
theorem C7_init_payment_validation (st : Store) (payload : PaymentInit)
    (tok : Token) (now : Time) (e : Email)
    (hauth : awaitable_get_user st tok now = Except.ok e) :
    (payload.amount < 0 →
      init_payment st payload tok now =
        (Except.error (ApiError.invalidInput "amount must be nonnegative"), st)) ∧
    (0 ≤ payload.amount →
      init_payment st payload tok now =
        (Except.ok (st.nextId, "initiated"),
          { st with
            payments := st.payments ++
              [(st.nextId,
                { user_email := e, purpose := payload.purpose, amount := payload.amount,
                  currency := "INR", status := "initiated",
                  application_ref := payload.application_ref, provider_ref := none })],
            nextId := st.nextId + 1 })) := by
  constructor
  · intro hneg
    have h0 : ¬ (0 ≤ payload.amount) := not_le.mpr hneg
    simp [init_payment, hauth, mkPayment, h0]
  · intro hpos
    simp [init_payment, hauth, mkPayment, hpos, insertPayment]

/-- C7 witness: init_payment with amount -1 and the valid token "tok1" fails
with InvalidInput and returns the example store unchanged. -/
theorem C7_witness :
    init_payment stEx { purpose := "fee", amount := -1, application_ref := none }
        "tok1" 500 =
      (Except.error (ApiError.invalidInput "amount must be nonnegative"), stEx) :=
  (C7_init_payment_validation stEx
    { purpose := "fee", amount := -1, application_ref := none }
    "tok1" 500 "asha@example.com" (by decide)).1 (by decide)

/-- C8: get_guide succeeds exactly on the five known guide keys and fails with
NotFound on every other key; the pan guide holds exactly 6 steps and the
official link https://www.incometax.gov.in/. -/
theorem C8_get_guide_characterisation :
    (∀ key : String, (∃ g, get_guide key = Except.ok g) ↔
      key ∈ ["aadhaar", "pan", "dl", "voter", "passport"]) ∧
    get_guide "pan" = Except.ok panGuide ∧
    panGuide.steps.length = 6 ∧
    panGuide.official = "https://www.incometax.gov.in/" := by
  refine ⟨?_, rfl, rfl, rfl⟩
  intro key
  by_cases h1 : key = "aadhaar"
  · subst h1; exact iff_of_true ⟨aadhaarGuide, rfl⟩ (by decide)
  by_cases h2 : key = "pan"
  · subst h2; exact iff_of_true ⟨panGuide, rfl⟩ (by decide)
  by_cases h3 : key = "dl"
  · subst h3; exact iff_of_true ⟨dlGuide, rfl⟩ (by decide)
  by_cases h4 : key = "voter"
  · subst h4; exact iff_of_true ⟨voterGuide, rfl⟩ (by decide)
  by_cases h5 : key = "passport"
  · subst h5; exact iff_of_true ⟨passportGuide, rfl⟩ (by decide)
  · apply iff_of_false
    · rintro ⟨g, hg⟩
      have hnone : GUIDES.lookup key = none := by
        unfold GUIDES
        rw [lookup_skip _ _ _ _ h1, lookup_skip _ _ _ _ h2, lookup_skip _ _ _ _ h3,
            lookup_skip _ _ _ _ h4, lookup_skip _ _ _ _ h5]
        rfl
      simp [get_guide, hnone] at hg
    · simp [h1, h2, h3, h4, h5]

/-- C9: a login call only appends a session record: every previously stored
session survives unchanged, and any token that authenticated before a later
login (its expiry still in the future) authenticates to the same user email
afterwards. -/
theorem C9_login_preserves_sessions (st : Store) (req : LoginRequest) (tok : Token)
    (now : Time) :
    (((login st req tok now).2).sessions =
      st.sessions ++ [{ user_email := req.email, token := tok, expires_at := now + sevenDays }]) ∧
    (∀ (tok0 : Token) (now0 : Time) (e0 : Email),
      awaitable_get_user st tok0 now0 = Except.ok e0 →
      awaitable_get_user ((login st req tok now).2) tok0 now0 = Except.ok e0) := by
  refine ⟨login_sessions st req tok now, ?_⟩
  intro tok0 now0 e0 h
  rw [awaitable_ok_iff] at h ⊢
  obtain ⟨htok, s, hfind, hue⟩ := h
  refine ⟨htok, s, ?_, hue⟩
  unfold findSession at hfind ⊢
  rw [login_sessions, List.find?_append, hfind]
  rfl

/-- C9 witness: the session token "tok1" issued earlier still authenticates to
asha@example.com after a later login by a different email. -/
theorem C9_witness :
    awaitable_get_user ((login stEx req0 "tok9" 100).2) "tok1" 500 =
      Except.ok "asha@example.com" :=
  (C9_login_preserves_sessions stEx req0 "tok9" 100).2 "tok1" 500 "asha@example.com"
    (by decide)

/-- C10: the login response always echoes the request: its name field is the
request name (absent when the request omitted it), never the stored one.  A
first login without a name stores "Citizen" but responds with no name, and a
later login with a different name responds with that new name while the
stored user record keeps the name "Citizen". -/
theorem C10_login_response_name_echo :
    (∀ (st : Store) (req : LoginRequest) (tok : Token) (now : Time),
      (login st req tok now).1 = { token := tok, email := req.email, name := req.name }) ∧
    (∀ (email : Email) (tok1 tok2 : Token) (n1 n2 : Time) (newName : String),
      (login emptyStore { email := email, name := none, preferred_language := some "en" }
          tok1 n1).1.name = none ∧
      ((login emptyStore { email := email, name := none, preferred_language := some "en" }
          tok1 n1).2).users =
        [{ name := "Citizen", email := email, preferred_language := "en", is_active := true }] ∧
      (login ((login emptyStore
            { email := email, name := none, preferred_language := some "en" } tok1 n1).2)
          { email := email, name := some newName, preferred_language := some "en" }
          tok2 n2).1.name = some newName ∧
      ((login ((login emptyStore
            { email := email, name := none, preferred_language := some "en" } tok1 n1).2)
          { email := email, name := some newName, preferred_language := some "en" }
          tok2 n2).2).users =
        [{ name := "Citizen", email := email, preferred_language := "en",
           is_active := true }]) := by
  constructor
  · intro st req tok now
    rfl
  · intro email tok1 tok2 n1 n2 newName
    have h1 : ((login emptyStore
        { email := email, name := none, preferred_language := some "en" } tok1 n1).2).users =
        [{ name := "Citizen", email := email, preferred_language := "en",
           is_active := true }] := by
      rw [login_users]
      simp [upsertUser, emptyStore, defaultUser, orDefault]
    have hex : ∃ u ∈ ((login emptyStore
        { email := email, name := none, preferred_language := some "en" } tok1 n1).2).users,
        u.email = email := by
      rw [h1]
      exact ⟨{ name := "Citizen", email := email, preferred_language := "en",
               is_active := true }, by simp, rfl⟩
    refine ⟨rfl, h1, rfl, ?_⟩
    rw [login_users, upsertUser_of_exists _ _ _ hex, h1]

end CitizenHub
